
import Mathlib

/-!
Verification of the vector-to-scalar volume conversion module and the
download utilities of the Slicer Python layer
(`Modules/Scripted/VectorToScalarVolume/VectorToScalarVolume.py` and
`Base/Python/slicer/util.py`), as a shallow embedding in Lean 4.

Volumes are modelled as nodes carrying an id, an IJK-to-RAS matrix (the 16
entries of a 4x4 matrix, as rationals) and image data; image data is a flat
list of voxels, each voxel a list of per-component rational values, together
with the stored component count and VTK scalar type.  The VTK image filters
used by the module live in the host library, not in this repository; they are
modelled from their documented behaviour (the module help text documents the
luminance formula, and the module source documents the rounding convention of
the average pipeline).
-/

set_option autoImplicit false

namespace SlicerSpec

/-- The VTK scalar types relevant to the module: `float` and `double` are the
floating types, the rest are the integer types. -/
inductive ScalarType where
  | uchar
  | char
  | short
  | ushort
  | int
  | uint
  | long
  | ulong
  | float
  | double

deriving DecidableEq, Repr

/-- `VTK_FLOAT` or `VTK_DOUBLE`. -/
def ScalarType.isFloating : ScalarType → Bool
  | .float => true
  | .double => true
  | _ => false

/-- Image data: stored component count, scalar type, and the voxels in scan
order, each voxel a list of component values. -/
structure ImageData where
  numberOfComponents : Nat
  scalarType : ScalarType
  voxels : List (List ℚ)

deriving DecidableEq, Repr

/-- A MRML volume node: its scene id, its IJK-to-RAS matrix (16 entries of a
4x4 matrix) and its image data. -/
structure VolumeNode where
  id : String
  ijkToRAS : List ℚ
  imageData : ImageData

deriving DecidableEq, Repr

/-- The `ConversionMethods` enum of `VectorToScalarVolume.py`. -/
inductive ConversionMethods where
  | LUMINANCE
  | AVERAGE
  | SINGLE_COMPONENT

deriving DecidableEq, Repr

/-- The `VectorToScalarVolumeParameterNode` parameter object: the four
user-selected options.  The node references and the conversion method are
`Option`-valued because an unset node reference reads back as `None` and
`run` accepts raw (unwrapped) parameter nodes whose stored method may not be
a `ConversionMethods` instance; `none` models such an unrecognized value. -/
structure VectorToScalarVolumeParameterNode where
  InputVolume : Option VolumeNode
  OutputVolume : Option VolumeNode
  ConversionMethod : Option ConversionMethods
  ComponentToExtract : Int

deriving DecidableEq, Repr

/-- Truncation toward zero of a rational, the behaviour of a C
`static_cast` from a floating value to an integer type. -/
def ratTrunc (q : ℚ) : ℚ :=
  if 0 ≤ q then ((⌊q⌋ : ℤ) : ℚ) else -((⌊-q⌋ : ℤ) : ℚ)

/-- Modelled from the spec: casting a sample value to a VTK scalar type
(host-library behaviour of `vtkImageCast` and of the luminance filter output
conversion): integer target types truncate toward zero, floating target
types keep the value. -/
def castValue (t : ScalarType) (q : ℚ) : ℚ :=
  if t.isFloating then q else ratTrunc q

/-- Modelled from the spec: the host-library filter
`vtkImageExtractComponents` with a single selected component `j`: every voxel
is reduced to its `j`-th component. -/
def vtkImageExtractComponents (j : Nat) (img : ImageData) : ImageData :=
  { numberOfComponents := 1
    scalarType := img.scalarType
    voxels := img.voxels.map (fun v => [v.getD j 0]) }

/-- Modelled from the spec: the host-library filter
`vtkImageExtractComponents` with selected components `0, 1, 2`. -/
def vtkImageExtractComponents3 (img : ImageData) : ImageData :=
  { numberOfComponents := 3
    scalarType := img.scalarType
    voxels := img.voxels.map (fun v => [v.getD 0 0, v.getD 1 0, v.getD 2 0]) }

/-- Modelled from the spec: the host-library filter `vtkImageLuminance`,
whose formula is documented in the module help text as
`scalar = 0.30*R + 0.59*G + 0.11*B`; the result is converted back to the
input scalar type. -/
def vtkImageLuminance (img : ImageData) : ImageData :=
  { numberOfComponents := 1
    scalarType := img.scalarType
    voxels := img.voxels.map (fun v =>
      [castValue img.scalarType
        (3 / 10 * v.getD 0 0 + 59 / 100 * v.getD 1 0 + 11 / 100 * v.getD 2 0)]) }

/-- Modelled from the spec: the host-library filter `vtkImageCast` with the
given output scalar type (default settings: no clamping, truncation toward
zero for integer targets). -/
def vtkImageCast (t : ScalarType) (img : ImageData) : ImageData :=
  { numberOfComponents := img.numberOfComponents
    scalarType := t
    voxels := img.voxels.map (fun v => v.map (castValue t)) }

/-- First component of the `k`-th voxel of an image. -/
def voxelValue (img : ImageData) (k : Nat) : ℚ :=
  (img.voxels.getD k []).getD 0 0

/-- Modelled from the spec: the host-library filter `vtkImageWeightedSum`
with `NormalizeByWeight` off: the pointwise sum of the inputs scaled by their
weights; the output takes the scalar type of the inputs. -/
def vtkImageWeightedSum (weights : List ℚ) (imgs : List ImageData) : ImageData :=
  let first := imgs.headD
    { numberOfComponents := 1, scalarType := ScalarType.double, voxels := [] }
  { numberOfComponents := 1
    scalarType := first.scalarType
    voxels := (List.range first.voxels.length).map (fun k =>
      [((weights.zip imgs).map (fun p => p.1 * voxelValue p.2 k)).sum]) }

/-- Modelled from the spec: the host-library filter `vtkImageMathematics`
in `AddConstant` mode: adds the constant to every sample. -/
def vtkImageMathematicsAddConstant (c : ℚ) (img : ImageData) : ImageData :=
  { img with voxels := img.voxels.map (fun v => v.map (fun x => x + c)) }

/-- `VectorToScalarVolumeLogic.runConversionMethodSingleComponent`: copy the
IJK-to-RAS matrix, then extract the selected component into the output. -/
def runConversionMethodSingleComponent
    (inputVolumeNode outputVolumeNode : VolumeNode) (componentToExtract : Int) :
    VolumeNode :=
  { outputVolumeNode with
    ijkToRAS := inputVolumeNode.ijkToRAS
    imageData := vtkImageExtractComponents componentToExtract.toNat inputVolumeNode.imageData }

/-- `VectorToScalarVolumeLogic.runConversionMethodLuminance`: copy the
IJK-to-RAS matrix, then extract components 0,1,2 and apply the luminance
filter into the output. -/
def runConversionMethodLuminance
    (inputVolumeNode outputVolumeNode : VolumeNode) : VolumeNode :=
  { outputVolumeNode with
    ijkToRAS := inputVolumeNode.ijkToRAS
    imageData := vtkImageLuminance (vtkImageExtractComponents3 inputVolumeNode.imageData) }

/-- `VectorToScalarVolumeLogic.runConversionMethodAverage`: copy the
IJK-to-RAS matrix; extract each component, cast it to double, feed all of
them with even weights `1/numberOfComponents` into a weighted sum with
`NormalizeByWeight` off; cast back to the input scalar type, adding 0.5
before the cast when the input scalar type is not `VTK_FLOAT` or
`VTK_DOUBLE`. -/
def runConversionMethodAverage
    (inputVolumeNode outputVolumeNode : VolumeNode) : VolumeNode :=
  let n := inputVolumeNode.imageData.numberOfComponents
  let evenWeight : ℚ := 1 / n
  let weights := List.replicate n evenWeight
  let summands := (List.range n).map (fun comp =>
    vtkImageCast ScalarType.double
      (vtkImageExtractComponents comp inputVolumeNode.imageData))
  let weightedSum := vtkImageWeightedSum weights summands
  let scalarType := inputVolumeNode.imageData.scalarType
  let preCast :=
    if scalarType = ScalarType.float ∨ scalarType = ScalarType.double then
      weightedSum
    else
      vtkImageMathematicsAddConstant (1 / 2) weightedSum
  { outputVolumeNode with
    ijkToRAS := inputVolumeNode.ijkToRAS
    imageData := vtkImageCast scalarType preCast }

/-- The conversion pipeline selected by a recognized conversion method. -/
def applyConversion (m : ConversionMethods)
    (inputVolumeNode outputVolumeNode : VolumeNode) (componentToExtract : Int) :
    VolumeNode :=
  match m with
  | .SINGLE_COMPONENT =>
      runConversionMethodSingleComponent inputVolumeNode outputVolumeNode componentToExtract
  | .LUMINANCE => runConversionMethodLuminance inputVolumeNode outputVolumeNode
  | .AVERAGE => runConversionMethodAverage inputVolumeNode outputVolumeNode

/-- `VectorToScalarVolumeLogic.isValidInputOutputData`: the validation
checks, in source order, returning the validity flag and the error
message. -/
def isValidInputOutputData (inputVolumeNode outputVolumeNode : Option VolumeNode)
    (conversionMethod : Option ConversionMethods) (componentToExtract : Int) :
    Bool × Option String :=
  match inputVolumeNode with
  | none => (false, some "no input volume node defined")
  | some inp =>
    match outputVolumeNode with
    | none => (false, some "no output volume node defined")
    | some out =>
      if inp.id = out.id then
        (false, some "input and output volume is the same. Create a new volume for output to avoid this error.")
      else
        match conversionMethod with
        | none => (false, some "conversionMethod unrecognized.")
        | some m =>
          let numberOfComponents := inp.imageData.numberOfComponents
          if m = ConversionMethods.SINGLE_COMPONENT ∧
              ¬(0 ≤ componentToExtract ∧ componentToExtract < (numberOfComponents : Int)) then
            (false, some ("component to extract (" ++ toString componentToExtract ++
              ") is invalid. Image has only " ++ toString numberOfComponents ++ " components."))
          else if m = ConversionMethods.LUMINANCE ∧ numberOfComponents < 3 then
            (false, some ("input has only " ++ toString numberOfComponents ++
              " components but requires at least 3 components for luminance conversion."))
          else
            (true, none)

/-- A placeholder node used only to model the direct attribute reads of the
Python `run` (validation guarantees the real node is present, so the
placeholder is never reached on any executed path). -/
def defaultVolumeNode : VolumeNode :=
  { id := ""
    ijkToRAS := List.replicate 16 0
    imageData := { numberOfComponents := 0, scalarType := ScalarType.double, voxels := [] } }

/-- The dispatch part of `VectorToScalarVolumeLogic.run`: the three
sequential `if conversionMethod is X` statements, each invoking its pipeline
on the output node.  The returned list records, in order, which pipelines
were invoked. -/
def runDispatch (conversionMethod : Option ConversionMethods)
    (inputVolumeNode outputVolumeNode : VolumeNode) (componentToExtract : Int) :
    List ConversionMethods × VolumeNode :=
  let s1 :=
    if conversionMethod = some ConversionMethods.SINGLE_COMPONENT then
      ([ConversionMethods.SINGLE_COMPONENT],
        runConversionMethodSingleComponent inputVolumeNode outputVolumeNode componentToExtract)
    else
      ([], outputVolumeNode)
  let s2 :=
    if conversionMethod = some ConversionMethods.LUMINANCE then
      (s1.1 ++ [ConversionMethods.LUMINANCE],
        runConversionMethodLuminance inputVolumeNode s1.2)
    else
      s1
  if conversionMethod = some ConversionMethods.AVERAGE then
    (s2.1 ++ [ConversionMethods.AVERAGE],
      runConversionMethodAverage inputVolumeNode s2.2)
  else
    s2

/-- `VectorToScalarVolumeLogic.run`: reject a missing parameter node, read
the four parameter values, validate them (raising the validation message on
failure), then dispatch on the conversion method.  The result records which
pipelines were invoked and either the raised error message or the updated
output volume node. -/
def run (parameterNode : Option VectorToScalarVolumeParameterNode) :
    List ConversionMethods × Except String VolumeNode :=
  match parameterNode with
  | none => ([], Except.error "Invalid Parameter Node: None")
  | some pn =>
    let inputVolumeNode := pn.InputVolume
    let outputVolumeNode := pn.OutputVolume
    let conversionMethod := pn.ConversionMethod
    let componentToExtract := pn.ComponentToExtract
    match isValidInputOutputData inputVolumeNode outputVolumeNode conversionMethod componentToExtract with
    | (false, msg) => ([], Except.error (msg.getD ""))
    | (true, _) =>
      let d := runDispatch conversionMethod
        (inputVolumeNode.getD defaultVolumeNode)
        (outputVolumeNode.getD defaultVolumeNode)
        componentToExtract
      (d.1, Except.ok d.2)

/-- `VectorToScalarVolumeLogic.runWithVariables`: build a parameter node
from the given values and run it. -/
def runWithVariables (inputVolumeNode outputVolumeNode : VolumeNode)
    (conversionMethod : ConversionMethods) (componentToExtract : Int) :
    List ConversionMethods × Except String VolumeNode :=
  run (some
    { InputVolume := some inputVolumeNode
      OutputVolume := some outputVolumeNode
      ConversionMethod := some conversionMethod
      ComponentToExtract := componentToExtract })

/-- The range `(minimum, maximum)` over all sample values of an image
(`GetScalarRange`), `none` on an empty image. -/
def ImageData.scalarRange (img : ImageData) : Option (ℚ × ℚ) :=
  match img.voxels.flatten with
  | [] => none
  | x :: xs => some (xs.foldl min x, xs.foldl max x)

/-- The kinds of VTK filter objects instantiated by the three conversion
pipelines. -/
inductive FilterKind where
  | extractComponents
  | luminance
  | imageCast
  | weightedSum
  | addConstant

deriving DecidableEq, Repr

/-- The filter objects instantiated by each conversion pipeline, in source
order, for an input with the given image data: the single-component pipeline
creates one `vtkImageExtractComponents`; the luminance pipeline creates a
`vtkImageExtractComponents` and a `vtkImageLuminance`; the average pipeline
creates a `vtkImageWeightedSum`, then one `vtkImageExtractComponents` and one
`vtkImageCast` per component, then the cast-back `vtkImageCast`, and a
`vtkImageMathematics` when the scalar type is not `VTK_FLOAT` or
`VTK_DOUBLE`. -/
def filtersUsed (m : ConversionMethods) (img : ImageData) : List FilterKind :=
  match m with
  | .SINGLE_COMPONENT => [FilterKind.extractComponents]
  | .LUMINANCE => [FilterKind.extractComponents, FilterKind.luminance]
  | .AVERAGE =>
    [FilterKind.weightedSum] ++
      (List.range img.numberOfComponents).flatMap
        (fun _ => [FilterKind.extractComponents, FilterKind.imageCast]) ++
      [FilterKind.imageCast] ++
      (if img.scalarType = ScalarType.float ∨ img.scalarType = ScalarType.double then
        []
      else
        [FilterKind.addConstant])

/-!
The download utilities of `Base/Python/slicer/util.py`.  The filesystem, the
network and the host unzip routine are modelled as an environment: the
contents fetched by each successive `urlretrieve` call, the outcome of each
successive `Unzip` call (a success flag and the resulting number of files in
the output directory), and the `hashlib` digest function (algorithm and file
contents to digest).  The mutable state is the target file (its contents, or
`none` when absent; empty contents model a zero-size file), the number of
files in the output directory, and the counters of download and unzip calls
made so far.
-/

/-- The environment a download runs in: successive network fetch results,
successive unzip outcomes, and the digest function. -/

structure DownloadEnv where
  net : Nat → Option String
  unzip : Nat → Bool × Nat
  hash : String → String → String

/-- The mutable state of the download utilities. -/
structure DownloadState where
  file : Option String
  dirCount : Nat
  dl : Nat
  uz : Nat

deriving DecidableEq, Repr

/-- Splitting a character list at a separator, the behaviour of the Python
`str.split` with a single-character separator. -/
def splitChars (sep : Char) : List Char → List (List Char)
  | [] => [[]]
  | c :: cs =>
    let r := splitChars sep cs
    if c = sep then [] :: r
    else
      match r with
      | [] => [[c]]
      | g :: gs => (c :: g) :: gs

/-- `checksum.split(":")` as used by `slicer.util.extractAlgoAndDigest`. -/
def splitOnColon (s : String) : List String :=
  (splitChars ':' s.data).map (fun cs => String.mk cs)

/-- `slicer.util.extractAlgoAndDigest`: parse a `algo:digest` checksum
string; `none` parses to `(none, none)`. -/
def extractAlgoAndDigest (checksum : Option String) :
    Except String (Option String × Option String) :=
  match checksum with
  | none => Except.ok (none, none)
  | some cs =>
    let parts := splitOnColon cs
    if parts.length ≠ 2 then
      Except.error ("invalid checksum " ++ cs ++ ". Expected format is algo:digest.")
    else
      let algo := parts.getD 0 ""
      let digest := parts.getD 1 ""
      if algo ∉ ["SHA256", "SHA512", "MD5"] then
        Except.error ("invalid algo " ++ algo ++ ". Algo must be one of SHA256, SHA512, MD5")
      else
        let expectedDigestLength : Nat :=
          if algo = "SHA256" then 64 else if algo = "SHA512" then 128 else 32
        if digest.length ≠ expectedDigestLength then
          Except.error ("invalid digest length " ++ toString digest.length)
        else
          Except.ok (some algo, some digest)

/-- `slicer.util.computeChecksum`: raise a ValueError on an algorithm other
than SHA256, SHA512 or MD5; otherwise the digest of the file contents.  The
digest computation itself is the standard hashlib library, not repository
code, abstracted as the environment hash function; a raise escaping the
caller is the `Except.error` case. -/
def computeChecksum (env : DownloadEnv) (algo : String) (content : String) :
    Except String String :=
  if algo ∉ ["SHA256", "SHA512", "MD5"] then
    Except.error ("unsupported hashing algorithm " ++ algo)
  else
    Except.ok (env.hash algo content)

/-- The fresh-download branch of `slicer.util.downloadFile` (target absent or
empty): call `urlretrieve`, then verify the checksum of the downloaded file
when an algorithm was given.  A failed retrieval is caught by the source and
reported as `False`, leaving the target file as it was; an exception escaping
the function is the `Except.error` case. -/
def downloadFileFresh (env : DownloadEnv) (algoOpt digestOpt : Option String)
    (s : DownloadState) : Except String (Bool × DownloadState) :=
  match env.net s.dl with
  | none => Except.ok (false, { s with dl := s.dl + 1 })
  | some content =>
    let s1 := { s with dl := s.dl + 1, file := some content }
    match algoOpt, digestOpt with
    | some algo, some digest =>
      match computeChecksum env algo content with
      | Except.error e => Except.error e
      | Except.ok current =>
        if current ≠ digest then Except.ok (false, s1) else Except.ok (true, s1)
    | _, _ => Except.ok (true, s1)

/-- `slicer.util.downloadFile` with `reDownloadIfChecksumInvalid` false,
the body of the single self-call of the source (whose recursion depth is at
most one): an existing nonempty file with a mismatched checksum is an
error. -/
def downloadFileNoRedownload (env : DownloadEnv) (checksum : Option String)
    (s : DownloadState) : Except String (Bool × DownloadState) :=
  match extractAlgoAndDigest checksum with
  | Except.error _ => Except.ok (false, s)
  | Except.ok (algoOpt, digestOpt) =>
    match s.file with
    | none => downloadFileFresh env algoOpt digestOpt s
    | some content =>
      if content = "" then downloadFileFresh env algoOpt digestOpt s
      else
        match algoOpt, digestOpt with
        | some algo, some digest =>
          match computeChecksum env algo content with
          | Except.error e => Except.error e
          | Except.ok current =>
            if current ≠ digest then Except.ok (false, s) else Except.ok (true, s)
        | _, _ => Except.ok (true, s)

/-- `slicer.util.downloadFile`: parse the checksum (a parse failure is
logged and reported as `False`); download when the target file is absent or
empty, verifying the checksum of the result; otherwise verify the existing
file, and when its checksum differs and `reDownloadIfChecksumInvalid` is
set, delete it and retry once with the flag cleared (the source expresses
the retry as a self-call with the flag cleared; `downloadFile_false` below
shows the unrolled call agrees with it). -/
def downloadFile (env : DownloadEnv) (checksum : Option String)
    (reDownloadIfChecksumInvalid : Bool) (s : DownloadState) :
    Except String (Bool × DownloadState) :=
  match extractAlgoAndDigest checksum with
  | Except.error _ => Except.ok (false, s)
  | Except.ok (algoOpt, digestOpt) =>
    match s.file with
    | none => downloadFileFresh env algoOpt digestOpt s
    | some content =>
      if content = "" then downloadFileFresh env algoOpt digestOpt s
      else
        match algoOpt, digestOpt with
        | some algo, some digest =>
          match computeChecksum env algo content with
          | Except.error e => Except.error e
          | Except.ok current =>
            if current ≠ digest then
              if reDownloadIfChecksumInvalid then
                downloadFileNoRedownload env checksum { s with file := none }
              else Except.ok (false, s)
            else Except.ok (true, s)
        | _, _ => Except.ok (true, s)

/-- ASCII lowercasing of a character, the behaviour of `str.lower` on the
file extensions compared by `extractArchive`. -/
def lowerChar (c : Char) : Char :=
  if 65 <= c.toNat ∧ c.toNat <= 90 then Char.ofNat (c.toNat + 32) else c

/-- ASCII lowercasing of a string. -/
def lowerString (s : String) : String :=
  String.mk (s.data.map lowerChar)

/-- `slicer.util.extractArchive`: fail when the archive is missing or not a
zip; succeed without unzipping when the output directory already holds the
expected number of files; otherwise unzip, failing when the host unzip fails
or the resulting file count differs from the expected one. -/
def extractArchive (env : DownloadEnv) (fileExtension : String)
    (expectedNumberOfExtractedFiles : Option Nat) (s : DownloadState) :
    Bool × DownloadState :=
  match s.file with
  | none => (false, s)
  | some _ =>
    if lowerString fileExtension ≠ ".zip" then (false, s)
    else
      let numOfFilesInOutputDir := s.dirCount
      if expectedNumberOfExtractedFiles = some numOfFilesInOutputDir then (true, s)
      else
        let r := env.unzip s.uz
        let s1 := { s with uz := s.uz + 1, dirCount := r.2 }
        if r.1 = false ∨
            (expectedNumberOfExtractedFiles ≠ none ∧
              expectedNumberOfExtractedFiles ≠ some r.2) then
          (false, s1)
        else (true, s1)

/-- The `_cleanup` helper of `slicer.util.downloadAndExtractArchive`: remove
the archive and empty the output directory.  `os.remove` raises
`FileNotFoundError` when the archive file does not exist; the raise is the
`Except.error` case. -/
def cleanupState (s : DownloadState) : Except String DownloadState :=
  match s.file with
  | none => Except.error "FileNotFoundError"
  | some _ => Except.ok { s with file := none, dirCount := 0 }

/-- `slicer.util.downloadAndExtractArchive`: up to `numberOfTrials` times,
download the archive and extract it, cleaning up and retrying when either
step fails; a final cleanup runs when all trials are exhausted.  An exception
escaping the function (from `computeChecksum` or from `_cleanup`) is the
`Except.error` case. -/
def downloadAndExtractArchive (env : DownloadEnv) (fileExtension : String)
    (expectedNumberOfExtractedFiles : Option Nat) (checksum : Option String)
    (numberOfTrials : Nat) (s : DownloadState) : Except String (Bool × DownloadState) :=
  match numberOfTrials with
  | 0 =>
    match cleanupState s with
    | Except.error e => Except.error e
    | Except.ok s1 => Except.ok (false, s1)
  | Nat.succ k =>
    match downloadFile env checksum true s with
    | Except.error e => Except.error e
    | Except.ok r1 =>
      if r1.1 = false then
        match cleanupState r1.2 with
        | Except.error e => Except.error e
        | Except.ok s1 =>
          downloadAndExtractArchive env fileExtension expectedNumberOfExtractedFiles
            checksum k s1
      else
        let r2 := extractArchive env fileExtension expectedNumberOfExtractedFiles r1.2
        if r2.1 = false then
          match cleanupState r2.2 with
          | Except.error e => Except.error e
          | Except.ok s1 =>
            downloadAndExtractArchive env fileExtension expectedNumberOfExtractedFiles
              checksum k s1
        else Except.ok (true, r2.2)

/-!
The fixed input of `VectorToScalarVolumeTest.test_VectorToScalarVolume1`: a
7x8x9 `uint8` vector volume whose every voxel has components (30, 50, 100),
and a fresh scalar output volume.
-/

/-- The identity 4x4 matrix as 16 entries, the IJK-to-RAS matrix of a fresh
volume node. -/

def identityIJKToRAS : List ℚ :=
  [1, 0, 0, 0, 0, 1, 0, 0, 0, 0, 1, 0, 0, 0, 0, 1]

/-- The 7x8x9 test input volume of the module test: every voxel has
components (30, 50, 100), stored as `uint8`. -/
def testInputVolume : VolumeNode :=
  { id := "vtkMRMLVectorVolumeNode1"
    ijkToRAS := identityIJKToRAS
    imageData :=
      { numberOfComponents := 3
        scalarType := ScalarType.uchar
        voxels := List.replicate (7 * 8 * 9) [30, 50, 100] } }

/-- The fresh scalar output volume of the module test. -/
def testOutputVolume : VolumeNode :=
  { id := "vtkMRMLScalarVolumeNode1"
    ijkToRAS := identityIJKToRAS
    imageData := { numberOfComponents := 1, scalarType := ScalarType.uchar, voxels := [] } }

/-!
Concrete fixtures used by the counterexamples and witnesses.
-/

/-- A small 3-component vector volume. -/

def smallVectorNode : VolumeNode :=
  { id := "vtkMRMLVectorVolumeNode1"
    ijkToRAS := identityIJKToRAS
    imageData :=
      { numberOfComponents := 3, scalarType := ScalarType.uchar, voxels := [[1, 2, 3]] } }

/-- A small 2-component vector volume with a distinct geometry. -/
def smallVectorNode2 : VolumeNode :=
  { id := "vtkMRMLVectorVolumeNode2"
    ijkToRAS := [2, 0, 0, 0, 0, 2, 0, 0, 0, 0, 2, 0, 0, 0, 0, 1]
    imageData :=
      { numberOfComponents := 2, scalarType := ScalarType.uchar, voxels := [[1, 3]] } }

/-- A fresh scalar output volume. -/
def smallScalarNode : VolumeNode :=
  { id := "vtkMRMLScalarVolumeNode1"
    ijkToRAS := identityIJKToRAS
    imageData := { numberOfComponents := 1, scalarType := ScalarType.uchar, voxels := [] } }

/-- A parameter node selecting the same node as input and as output. -/
def sameNodeParam : VectorToScalarVolumeParameterNode :=
  { InputVolume := some smallVectorNode
    OutputVolume := some smallVectorNode
    ConversionMethod := some ConversionMethods.AVERAGE
    ComponentToExtract := 0 }

/-- A parameter node with no input volume selected. -/
def noInputParam : VectorToScalarVolumeParameterNode :=
  { InputVolume := none
    OutputVolume := some smallScalarNode
    ConversionMethod := some ConversionMethods.AVERAGE
    ComponentToExtract := 0 }

/-- A fully valid parameter node over the test volumes. -/
def validParam : VectorToScalarVolumeParameterNode :=
  { InputVolume := some testInputVolume
    OutputVolume := some testOutputVolume
    ConversionMethod := some ConversionMethods.AVERAGE
    ComponentToExtract := 0 }

/-!
Concrete download environments and states used by the C7 scenarios.
-/

set_option maxRecDepth 8000

/-- A 64-character digest used by the concrete download scenarios. -/
def sha256Digest : String := String.mk (List.replicate 64 'a')

/-- An environment whose network always serves contents `new`, whose digest
of `new` matches `sha256Digest` and of anything else does not. -/
def retryEnv : DownloadEnv :=
  { net := fun _ => some "new"
    unzip := fun _ => (true, 1)
    hash := fun _ content => if content = "new" then sha256Digest else "bad" }

/-- An environment whose first network fetch serves corrupt contents failing
the checksum and later fetches serve `new`, with an unzip producing five
files. -/
def retryEnvB : DownloadEnv :=
  { net := fun k => if k = 0 then some "corrupt" else some "new"
    unzip := fun _ => (true, 5)
    hash := fun _ content => if content = "new" then sha256Digest else "bad" }

/-- A state in which the target file already exists with stale contents. -/
def preexistingFileState : DownloadState :=
  { file := some "old", dirCount := 0, dl := 0, uz := 0 }

/-- A state with no target file and an empty output directory. -/
def emptyDownloadState : DownloadState :=
  { file := none, dirCount := 0, dl := 0, uz := 0 }

/-- The unrolled retry of `downloadFile` is exactly the source self-call
with `reDownloadIfChecksumInvalid` false. -/
theorem downloadFile_false (env : DownloadEnv) (checksum : Option String)
    (s : DownloadState) :
    downloadFile env checksum false s = downloadFileNoRedownload env checksum s := by
  unfold downloadFile downloadFileNoRedownload
  split
  · rfl
  · split
    · rfl
    · split
      · rfl
      · split
        · split
          · rfl
          · split <;> rfl
        · rfl

/-!
General list helpers used to reason about the voxelwise pipelines.
-/

theorem getD_map_of_lt {α β : Type} (l : List α) (f : α → β) (k : Nat)
    (hk : k < l.length) (d : β) (e : α) :
    (l.map f).getD k d = f (l.getD k e) := by
  induction l generalizing k with
  | nil => simp at hk
  | cons x xs ih =>
    cases k with
    | zero => simp
    | succ m =>
      simp only [List.map_cons, List.getD_cons_succ]
      exact ih m (by simpa using hk)

theorem getD_mem_of_lt {α : Type} (l : List α) (k : Nat) (hk : k < l.length) (d : α) :
    l.getD k d ∈ l := by
  induction l generalizing k with
  | nil => simp at hk
  | cons x xs ih =>
    cases k with
    | zero => simp
    | succ m =>
      simp only [List.getD_cons_succ]
      exact List.mem_cons_of_mem x (ih m (by simpa using hk))

theorem getD_replicate_of_lt {α : Type} (n k : Nat) (hk : k < n) (a d : α) :
    (List.replicate n a).getD k d = a := by
  induction n generalizing k with
  | zero => omega
  | succ m ih =>
    cases k with
    | zero => simp [List.replicate_succ]
    | succ j =>
      simp only [List.replicate_succ, List.getD_cons_succ]
      exact ih j (by omega)

theorem map_range_const {α : Type} (n : Nat) (b : α) :
    (List.range n).map (fun _ => b) = List.replicate n b := by
  induction n with
  | zero => simp
  | succ m ih => simp [List.range_succ, ih, ← List.replicate_succ']

theorem flatten_replicate_singleton {α : Type} (n : Nat) (c : α) :
    (List.replicate n ([c] : List α)).flatten = List.replicate n c := by
  induction n with
  | zero => simp
  | succ m ih => simp [List.replicate_succ, ih]

theorem foldl_min_replicate (n : Nat) (x : ℚ) :
    (List.replicate n x).foldl min x = x := by
  induction n with
  | zero => rfl
  | succ m ih => simp [List.replicate_succ, ih]

theorem foldl_max_replicate (n : Nat) (x : ℚ) :
    (List.replicate n x).foldl max x = x := by
  induction n with
  | zero => rfl
  | succ m ih => simp [List.replicate_succ, ih]

/-- The scalar range of a nonempty constant single-component image is the
single point of its constant value. -/
theorem scalarRange_of_voxels (img : ImageData) (n : Nat) (hn : 0 < n) (c : ℚ)
    (h : img.voxels = List.replicate n [c]) :
    img.scalarRange = some (c, c) := by
  cases n with
  | zero => omega
  | succ m =>
    unfold ImageData.scalarRange
    rw [h, flatten_replicate_singleton, List.replicate_succ]
    simp [foldl_min_replicate, foldl_max_replicate]

theorem zip_replicate_map {α β γ : Type} (w : β) (l : List α) (g : α → γ) :
    (List.replicate l.length w).zip (l.map g) = l.map (fun x => (w, g x)) := by
  induction l with
  | nil => rfl
  | cons x xs ih => simp [List.replicate_succ, ih]

theorem sum_range_mul_getD (w : ℚ) (v : List ℚ) :
    ((List.range v.length).map (fun j => w * v.getD j 0)).sum = w * v.sum := by
  induction v with
  | nil => simp
  | cons x xs ih =>
    simp only [List.length_cons, List.range_succ_eq_map, List.map_cons, List.map_map,
      List.sum_cons, List.getD_cons_zero]
    have hcomp :
        ((List.range xs.length).map ((fun j => w * (x :: xs).getD j 0) ∘ Nat.succ)) =
          (List.range xs.length).map (fun j => w * xs.getD j 0) := by
      apply List.map_congr_left
      intro a _
      simp
    rw [hcomp, ih, mul_add]

theorem headD_range_map {α : Type} (n : Nat) (hn : 0 < n) (f : Nat → α) (d : α) :
    ((List.range n).map f).headD d = f 0 := by
  cases n with
  | zero => omega
  | succ m => rw [List.range_succ_eq_map]; simp

theorem castValue_double (q : ℚ) : castValue ScalarType.double q = q := rfl

theorem getD_range_of_lt (n k : Nat) (hk : k < n) (d : Nat) :
    (List.range n).getD k d = k := by
  induction n with
  | zero => omega
  | succ m ih =>
    rcases Nat.lt_or_ge k m with h | h
    · rw [List.range_succ, List.getD_append _ _ _ _ (by simpa using h)]
      exact ih h
    · have hk' : k = m := by omega
      subst hk'
      rw [List.range_succ]
      rw [List.getD_eq_getElem?_getD, List.getElem?_append_right (by simp)]
      simp

/-- The weighted sum of `n` images drawn from an indexed family, under a
constant weight list of matching length: pointwise, sample `k` is the sum
over the family of the weighted first components. -/
theorem weightedSum_range (w : ℚ) (n : Nat) (hn : 0 < n) (f : Nat → ImageData) :
    vtkImageWeightedSum (List.replicate n w) ((List.range n).map f) =
      { numberOfComponents := 1
        scalarType := (f 0).scalarType
        voxels := (List.range (f 0).voxels.length).map (fun k =>
          [((List.range n).map (fun j => w * voxelValue (f j) k)).sum]) } := by
  have h1 : ((List.range n).map f).headD
      { numberOfComponents := 1, scalarType := ScalarType.double, voxels := [] } = f 0 :=
    headD_range_map n hn f _
  have h2 : ((List.replicate n w).zip ((List.range n).map f)) =
      (List.range n).map (fun j => (w, f j)) := by
    have h := zip_replicate_map w (List.range n) f
    rwa [List.length_range] at h
  simp only [vtkImageWeightedSum, h1, h2, List.map_map]
  rfl

theorem voxelValue_cast_extract (img : ImageData) (j k : Nat)
    (hk : k < img.voxels.length) :
    voxelValue (vtkImageCast ScalarType.double (vtkImageExtractComponents j img)) k =
      (img.voxels.getD k []).getD j 0 := by
  unfold voxelValue vtkImageCast vtkImageExtractComponents
  simp only [List.map_map]
  rw [getD_map_of_lt _ _ k (by simpa using hk) _ []]
  simp [castValue_double]

/-- The average pipeline keeps the scalar type of its input. -/
theorem average_scalarType (inp out : VolumeNode) :
    (runConversionMethodAverage inp out).imageData.scalarType =
      inp.imageData.scalarType := by
  unfold runConversionMethodAverage
  dsimp only
  split <;> rfl

/-- The voxels produced by the average pipeline: sample `k` is the mean of
the components of input voxel `k`, with one half added before the cast back
exactly for the non-floating scalar types. -/
theorem average_voxels (inp out : VolumeNode)
    (hn : 0 < inp.imageData.numberOfComponents)
    (hwf : ∀ v ∈ inp.imageData.voxels, v.length = inp.imageData.numberOfComponents) :
    (runConversionMethodAverage inp out).imageData.voxels =
      (List.range inp.imageData.voxels.length).map (fun k =>
        [castValue inp.imageData.scalarType
          ((inp.imageData.voxels.getD k []).sum / inp.imageData.numberOfComponents +
            (if inp.imageData.scalarType = ScalarType.float ∨
                inp.imageData.scalarType = ScalarType.double then 0 else 1 / 2))]) := by
  set img := inp.imageData with himg
  set n := img.numberOfComponents with hn'
  set f : Nat → ImageData := fun comp =>
    vtkImageCast ScalarType.double (vtkImageExtractComponents comp img) with hf
  have hlen : (f 0).voxels.length = img.voxels.length := by
    simp [hf, vtkImageCast, vtkImageExtractComponents]
  have hS : ∀ k, k < img.voxels.length →
      ((List.range n).map (fun j => (1 / (n : ℚ)) * voxelValue (f j) k)).sum =
        (img.voxels.getD k []).sum / n := by
    intro k hk
    have hv : (img.voxels.getD k []).length = n :=
      hwf _ (getD_mem_of_lt _ _ hk _)
    have hrw : ∀ j, (1 / (n : ℚ)) * voxelValue (f j) k =
        (1 / (n : ℚ)) * (img.voxels.getD k []).getD j 0 := by
      intro j
      rw [hf]
      rw [voxelValue_cast_extract img j k hk]
    calc ((List.range n).map (fun j => (1 / (n : ℚ)) * voxelValue (f j) k)).sum
        = ((List.range n).map
            (fun j => (1 / (n : ℚ)) * (img.voxels.getD k []).getD j 0)).sum := by
          congr 1
          exact List.map_congr_left (fun j _ => hrw j)
      _ = (1 / (n : ℚ)) * (img.voxels.getD k []).sum := by
          rw [← hv, sum_range_mul_getD]
      _ = (img.voxels.getD k []).sum / n := by rw [one_div_mul_eq_div]
  unfold runConversionMethodAverage
  rw [← himg, ← hn', ← hf]
  dsimp only
  rw [weightedSum_range (1 / (n : ℚ)) n hn f]
  by_cases hft : img.scalarType = ScalarType.float ∨ img.scalarType = ScalarType.double
  · simp only [if_pos hft, vtkImageCast, hlen, List.map_map]
    apply List.map_congr_left
    intro k hk
    have hk' : k < img.voxels.length := by simpa using List.mem_range.mp hk
    simp only [Function.comp, List.map_cons, List.map_nil]
    rw [hS k hk', add_zero]
  · simp only [if_neg hft, vtkImageMathematicsAddConstant, vtkImageCast, hlen, List.map_map]
    apply List.map_congr_left
    intro k hk
    have hk' : k < img.voxels.length := by simpa using List.mem_range.mp hk
    simp only [Function.comp, List.map_cons, List.map_nil]
    rw [hS k hk']

/-- In the dispatch of `run`, a recognized conversion method fires exactly
its own pipeline. -/
theorem runDispatch_eq (m : ConversionMethods) (inp out : VolumeNode) (c : Int) :
    runDispatch (some m) inp out c = ([m], applyConversion m inp out c) := by
  cases m <;> simp [runDispatch, applyConversion]

/-- `run` on a validated parameter node: the selected pipeline runs, alone,
and yields the converted output node. -/
theorem run_of_valid (pn : VectorToScalarVolumeParameterNode)
    (inp out : VolumeNode) (m : ConversionMethods)
    (hin : pn.InputVolume = some inp) (hout : pn.OutputVolume = some out)
    (hm : pn.ConversionMethod = some m)
    (hv : (isValidInputOutputData pn.InputVolume pn.OutputVolume
      pn.ConversionMethod pn.ComponentToExtract).1 = true) :
    run (some pn) =
      ([m], Except.ok (applyConversion m inp out pn.ComponentToExtract)) := by
  unfold run
  dsimp only
  rcases hr : isValidInputOutputData pn.InputVolume pn.OutputVolume
      pn.ConversionMethod pn.ComponentToExtract with ⟨b, msg⟩
  cases b
  · rw [hr] at hv; simp at hv
  · simp only [hin, hout, hm, Option.getD_some, runDispatch_eq]

/-- `run` on a parameter node reports an error exactly when validation
fails; on success no pipeline has run before the result. -/
theorem run_error_iff_invalid (pn : VectorToScalarVolumeParameterNode) :
    (∃ e, (run (some pn)).2 = Except.error e) ↔
      (isValidInputOutputData pn.InputVolume pn.OutputVolume
        pn.ConversionMethod pn.ComponentToExtract).1 = false := by
  unfold run
  dsimp only
  rcases hr : isValidInputOutputData pn.InputVolume pn.OutputVolume
      pn.ConversionMethod pn.ComponentToExtract with ⟨b, msg⟩
  cases b <;> simp

/-- The validation flag of `isValidInputOutputData` is false exactly in the
cases it checks, in source order. -/
theorem invalid_iff_cases (i o : Option VolumeNode) (m : Option ConversionMethods) (c : Int) :
    (isValidInputOutputData i o m c).1 = false ↔
      (i = none ∨ o = none ∨
        (∃ inp out, i = some inp ∧ o = some out ∧ inp.id = out.id) ∨
        m = none ∨
        (m = some ConversionMethods.SINGLE_COMPONENT ∧
          ∃ inp, i = some inp ∧
            ¬(0 ≤ c ∧ c < (inp.imageData.numberOfComponents : Int))) ∨
        (m = some ConversionMethods.LUMINANCE ∧
          ∃ inp, i = some inp ∧ inp.imageData.numberOfComponents < 3)) := by
  rcases i with _ | inp
  · simp [isValidInputOutputData]
  · rcases o with _ | out
    · simp [isValidInputOutputData]
    · by_cases hid : inp.id = out.id
      · simp only [isValidInputOutputData, if_pos hid]
        simp [hid]
      · rcases m with _ | cm
        · simp [isValidInputOutputData, hid]
        · cases cm with
          | SINGLE_COMPONENT =>
            by_cases hr : 0 ≤ c ∧ c < (inp.imageData.numberOfComponents : Int)
            · simp [isValidInputOutputData, hid, hr]
            · simp [isValidInputOutputData, hid, hr]
              omega
          | LUMINANCE =>
            by_cases h3 : inp.imageData.numberOfComponents < 3
            · simp [isValidInputOutputData, hid, h3]
            · simp [isValidInputOutputData, hid, h3]
          | AVERAGE => simp [isValidInputOutputData, hid]

/-- Evaluation of the truncation toward zero on a nonnegative rational lying
in `[z, z+1)`. -/
theorem ratTrunc_nonneg_eq (q : ℚ) (z : ℤ) (h0 : 0 ≤ q)
    (h1 : (z : ℚ) ≤ q) (h2 : q < z + 1) :
    ratTrunc q = (z : ℚ) := by
  unfold ratTrunc
  rw [if_pos h0]
  have hf : ⌊q⌋ = z := Int.floor_eq_iff.mpr ⟨h1, by exact_mod_cast h2⟩
  rw [hf]

/-- C1, amended to include the same-node check: `run` reports a validation
error exactly when the input is missing, the output is missing, input and
output are the same node, the conversion method is unrecognized, the
component index is out of range for single-component extraction, or the
input has fewer than three components for luminance; a parameter node
passing all these checks raises no validation error. -/
theorem C1_run_error_iff_validation (pn : VectorToScalarVolumeParameterNode) :
    (∃ e, (run (some pn)).2 = Except.error e) ↔
      (pn.InputVolume = none ∨ pn.OutputVolume = none ∨
        (∃ inp out, pn.InputVolume = some inp ∧ pn.OutputVolume = some out ∧
          inp.id = out.id) ∨
        pn.ConversionMethod = none ∨
        (pn.ConversionMethod = some ConversionMethods.SINGLE_COMPONENT ∧
          ∃ inp, pn.InputVolume = some inp ∧
            ¬(0 ≤ pn.ComponentToExtract ∧
              pn.ComponentToExtract < (inp.imageData.numberOfComponents : Int))) ∨
        (pn.ConversionMethod = some ConversionMethods.LUMINANCE ∧
          ∃ inp, pn.InputVolume = some inp ∧ inp.imageData.numberOfComponents < 3)) :=
  (run_error_iff_invalid pn).trans (invalid_iff_cases _ _ _ _)

/-- C1, counterexample to the claim as stated: a parameter node in none of
the failure cases the claim lists (input selected, output selected, method
recognized and equal to AVERAGE, so no component or channel-count condition
applies) on which `run` nevertheless raises a validation error, because
input and output are the same node. -/
theorem C1_counterexample :
    ¬(sameNodeParam.InputVolume = none ∨ sameNodeParam.OutputVolume = none ∨
      sameNodeParam.ConversionMethod = none ∨
      sameNodeParam.ConversionMethod = some ConversionMethods.SINGLE_COMPONENT ∨
      sameNodeParam.ConversionMethod = some ConversionMethods.LUMINANCE) ∧
    (run (some sameNodeParam)).2 =
      Except.error "input and output volume is the same. Create a new volume for output to avoid this error." := by
  constructor
  · simp [sameNodeParam]
  · rfl

theorem castValue_uchar (q : ℚ) : castValue ScalarType.uchar q = ratTrunc q := rfl

/-- C2: on the 7x8x9 test volume with constant voxel (30, 50, 100), the four
tested conversions produce constant outputs with single-point scalar ranges
30, 50, 49 and 60. -/
theorem C2_test_scalar_ranges :
    ((runWithVariables testInputVolume testOutputVolume
        ConversionMethods.SINGLE_COMPONENT 0).2.map
      (fun v => v.imageData.scalarRange) = Except.ok (some (30, 30))) ∧
    ((runWithVariables testInputVolume testOutputVolume
        ConversionMethods.SINGLE_COMPONENT 1).2.map
      (fun v => v.imageData.scalarRange) = Except.ok (some (50, 50))) ∧
    ((runWithVariables testInputVolume testOutputVolume
        ConversionMethods.LUMINANCE 0).2.map
      (fun v => v.imageData.scalarRange) = Except.ok (some (49, 49))) ∧
    ((runWithVariables testInputVolume testOutputVolume
        ConversionMethods.AVERAGE 0).2.map
      (fun v => v.imageData.scalarRange) = Except.ok (some (60, 60))) := by
  refine ⟨?_, ?_, ?_, ?_⟩
  · unfold runWithVariables
    rw [run_of_valid _ testInputVolume testOutputVolume _ rfl rfl rfl (by rfl)]
    simp only [Except.map, Except.ok.injEq]
    apply scalarRange_of_voxels _ (7 * 8 * 9) (by norm_num) 30
    show (vtkImageExtractComponents (Int.toNat 0) testInputVolume.imageData).voxels =
      List.replicate (7 * 8 * 9) [30]
    rw [show testInputVolume.imageData =
      { numberOfComponents := 3, scalarType := ScalarType.uchar,
        voxels := List.replicate (7 * 8 * 9) [(30 : Rat), 50, 100] } from rfl]
    unfold vtkImageExtractComponents
    rw [List.map_replicate]
    norm_num
  · unfold runWithVariables
    rw [run_of_valid _ testInputVolume testOutputVolume _ rfl rfl rfl (by rfl)]
    simp only [Except.map, Except.ok.injEq]
    apply scalarRange_of_voxels _ (7 * 8 * 9) (by norm_num) 50
    show (vtkImageExtractComponents (Int.toNat 1) testInputVolume.imageData).voxels =
      List.replicate (7 * 8 * 9) [50]
    rw [show testInputVolume.imageData =
      { numberOfComponents := 3, scalarType := ScalarType.uchar,
        voxels := List.replicate (7 * 8 * 9) [(30 : Rat), 50, 100] } from rfl]
    unfold vtkImageExtractComponents
    rw [List.map_replicate]
    norm_num
  · unfold runWithVariables
    rw [run_of_valid _ testInputVolume testOutputVolume _ rfl rfl rfl (by rfl)]
    simp only [Except.map, Except.ok.injEq]
    apply scalarRange_of_voxels _ (7 * 8 * 9) (by norm_num) 49
    show (vtkImageLuminance (vtkImageExtractComponents3 testInputVolume.imageData)).voxels =
      List.replicate (7 * 8 * 9) [49]
    rw [show testInputVolume.imageData =
      { numberOfComponents := 3, scalarType := ScalarType.uchar,
        voxels := List.replicate (7 * 8 * 9) [(30 : Rat), 50, 100] } from rfl]
    unfold vtkImageExtractComponents3 vtkImageLuminance
    simp only [List.map_replicate]
    simp only [List.getD_cons_zero, List.getD_cons_succ, castValue_uchar]
    rw [show (3 / 10 * (30 : Rat) + 59 / 100 * 50 + 11 / 100 * 100) = 99 / 2 by norm_num]
    rw [ratTrunc_nonneg_eq _ 49 (by norm_num) (by norm_num) (by norm_num)]
    norm_num
  · unfold runWithVariables
    rw [run_of_valid _ testInputVolume testOutputVolume _ rfl rfl rfl (by rfl)]
    simp only [Except.map, Except.ok.injEq]
    apply scalarRange_of_voxels _ (7 * 8 * 9) (by norm_num) 60
    have hn : 0 < testInputVolume.imageData.numberOfComponents := by
      norm_num [testInputVolume]
    have hwf : ∀ v ∈ testInputVolume.imageData.voxels,
        v.length = testInputVolume.imageData.numberOfComponents := by
      intro v hv
      have hv2 : v = [(30 : Rat), 50, 100] := by simpa [testInputVolume] using hv
      rw [hv2]
      rfl
    show (runConversionMethodAverage testInputVolume testOutputVolume).imageData.voxels =
      List.replicate (7 * 8 * 9) [60]
    rw [average_voxels _ _ hn hwf]
    have hpt : ∀ k ∈ List.range testInputVolume.imageData.voxels.length,
        [castValue testInputVolume.imageData.scalarType
          ((testInputVolume.imageData.voxels.getD k []).sum /
              testInputVolume.imageData.numberOfComponents +
            (if testInputVolume.imageData.scalarType = ScalarType.float ∨
                testInputVolume.imageData.scalarType = ScalarType.double
              then 0 else 1 / 2))] = ([(60 : Rat)] : List Rat) := by
      intro k hk
      have hk2 : k < 7 * 8 * 9 := by
        simpa [testInputVolume] using List.mem_range.mp hk
      rw [show testInputVolume.imageData.voxels =
        List.replicate (7 * 8 * 9) [(30 : Rat), 50, 100] from rfl]
      rw [getD_replicate_of_lt _ _ hk2]
      rw [show testInputVolume.imageData.scalarType = ScalarType.uchar from rfl]
      rw [show testInputVolume.imageData.numberOfComponents = 3 from rfl]
      simp only [castValue_uchar]
      rw [if_neg (by decide :
        ¬(ScalarType.uchar = ScalarType.float ∨ ScalarType.uchar = ScalarType.double))]
      rw [show (([(30 : Rat), 50, 100].sum / (3 : Nat) + 1 / 2) : Rat) = 121 / 2 by norm_num]
      rw [ratTrunc_nonneg_eq _ 60 (by norm_num) (by norm_num) (by norm_num)]
      norm_num
    rw [List.map_congr_left hpt, map_range_const]
    simp [testInputVolume]

/-- C3: the average pipeline outputs the scalar type of its input; each
output voxel is the equal-weight `1/numberOfComponents` sum of the
double-cast components (no normalization by weight), cast back to the input
scalar type, with 0.5 added before the cast exactly when the input scalar
type is not `VTK_FLOAT` or `VTK_DOUBLE`. -/
theorem C3_average_cast_back (inp out : VolumeNode) (k : Nat)
    (hn : 0 < inp.imageData.numberOfComponents)
    (hwf : ∀ v ∈ inp.imageData.voxels,
      v.length = inp.imageData.numberOfComponents)
    (hk : k < inp.imageData.voxels.length) :
    (runConversionMethodAverage inp out).imageData.scalarType =
      inp.imageData.scalarType ∧
    (runConversionMethodAverage inp out).imageData.voxels.getD k [] =
      [castValue inp.imageData.scalarType
        ((inp.imageData.voxels.getD k []).sum /
            inp.imageData.numberOfComponents +
          (if inp.imageData.scalarType = ScalarType.float ∨
              inp.imageData.scalarType = ScalarType.double
            then 0 else 1 / 2))] := by
  refine ⟨average_scalarType inp out, ?_⟩
  rw [average_voxels inp out hn hwf]
  rw [getD_map_of_lt _ _ k (by simpa using hk) _ 0]
  rw [getD_range_of_lt _ _ hk]

/-- Witness for C3 on a concrete 2-component `uint8` volume. -/
theorem C3_average_cast_back_witness :
    0 < smallVectorNode2.imageData.numberOfComponents ∧
    ((runConversionMethodAverage smallVectorNode2 smallScalarNode).imageData.scalarType =
        smallVectorNode2.imageData.scalarType ∧
      (runConversionMethodAverage smallVectorNode2 smallScalarNode).imageData.voxels.getD 0 [] =
        [castValue smallVectorNode2.imageData.scalarType
          ((smallVectorNode2.imageData.voxels.getD 0 []).sum /
              smallVectorNode2.imageData.numberOfComponents +
            (if smallVectorNode2.imageData.scalarType = ScalarType.float ∨
                smallVectorNode2.imageData.scalarType = ScalarType.double
              then 0 else 1 / 2))]) :=
  ⟨by decide, C3_average_cast_back smallVectorNode2 smallScalarNode 0 (by decide)
    (by decide) (by decide)⟩

/-- C4: when validation fails, `run` raises without invoking any conversion
pipeline, so the output volume node is untouched. -/
theorem C4_error_before_pipelines (pn : VectorToScalarVolumeParameterNode)
    (h : (isValidInputOutputData pn.InputVolume pn.OutputVolume
      pn.ConversionMethod pn.ComponentToExtract).1 = false) :
    (run (some pn)).1 = [] ∧ ∃ e, (run (some pn)).2 = Except.error e := by
  unfold run
  dsimp only
  rcases hr : isValidInputOutputData pn.InputVolume pn.OutputVolume
      pn.ConversionMethod pn.ComponentToExtract with ⟨b, msg⟩
  cases b
  · simp
  · rw [hr] at h; simp at h

/-- Witness for C4 on a parameter node with no input volume. -/
theorem C4_error_before_pipelines_witness :
    (isValidInputOutputData noInputParam.InputVolume noInputParam.OutputVolume
      noInputParam.ConversionMethod noInputParam.ComponentToExtract).1 = false ∧
    ((run (some noInputParam)).1 = [] ∧
      ∃ e, (run (some noInputParam)).2 = Except.error e) :=
  ⟨by decide, C4_error_before_pipelines noInputParam (by decide)⟩

/-- C5, counterexample to the claim as stated: on a 3-component input the
average pipeline instantiates 9 filter objects, not a chain of three to five
calls, and the single-component pipeline instantiates just one. -/
theorem C5_counterexample :
    (filtersUsed ConversionMethods.AVERAGE smallVectorNode.imageData).length = 9 ∧
    ¬(filtersUsed ConversionMethods.AVERAGE smallVectorNode.imageData).length ≤ 5 ∧
    (filtersUsed ConversionMethods.SINGLE_COMPONENT smallVectorNode.imageData).length = 1 ∧
    ¬3 ≤ (filtersUsed ConversionMethods.SINGLE_COMPONENT smallVectorNode.imageData).length := by
  decide

theorem length_flatMap_pair {α : Type} (n : Nat) (a b : α) :
    ((List.range n).flatMap (fun _ => [a, b])).length = 2 * n := by
  induction n with
  | zero => rfl
  | succ m ih =>
    rw [List.range_succ, List.flatMap_append]
    simp only [List.length_append, ih]
    simp
    omega

/-- C5, amended: the single-component and luminance pipelines are fixed
chains of one and two filter objects; the average pipeline iterates over the
components, instantiating `2n+2` filter objects for a floating input and
`2n+3` for an integer input of `n` components. -/
theorem C5_pipeline_shapes (img : ImageData) :
    (filtersUsed ConversionMethods.SINGLE_COMPONENT img).length = 1 ∧
    (filtersUsed ConversionMethods.LUMINANCE img).length = 2 ∧
    (filtersUsed ConversionMethods.AVERAGE img).length =
      (if img.scalarType = ScalarType.float ∨ img.scalarType = ScalarType.double
        then 2 * img.numberOfComponents + 2
        else 2 * img.numberOfComponents + 3) := by
  refine ⟨rfl, rfl, ?_⟩
  unfold filtersUsed
  split_ifs with h <;>
    simp only [List.length_append, length_flatMap_pair, List.length_cons,
      List.length_nil, List.length_singleton] <;>
    omega

/-- C6: on a validated parameter node, `run` executes exactly one pipeline,
the one selected by the conversion method, and its result is a pure function
of the four parameter values. -/
theorem C6_single_dispatch (pn : VectorToScalarVolumeParameterNode)
    (inp out : VolumeNode) (m : ConversionMethods)
    (hin : pn.InputVolume = some inp) (hout : pn.OutputVolume = some out)
    (hm : pn.ConversionMethod = some m)
    (hv : (isValidInputOutputData pn.InputVolume pn.OutputVolume
      pn.ConversionMethod pn.ComponentToExtract).1 = true) :
    run (some pn) =
      ([m], Except.ok (applyConversion m inp out pn.ComponentToExtract)) :=
  run_of_valid pn inp out m hin hout hm hv

/-- Witness for C6 on the valid test parameter node. -/
theorem C6_single_dispatch_witness :
    validParam.ConversionMethod = some ConversionMethods.AVERAGE ∧
    run (some validParam) =
      ([ConversionMethods.AVERAGE],
        Except.ok (applyConversion ConversionMethods.AVERAGE testInputVolume
          testOutputVolume validParam.ComponentToExtract)) :=
  ⟨rfl, C6_single_dispatch validParam testInputVolume testOutputVolume
    ConversionMethods.AVERAGE rfl rfl rfl (by rfl)⟩

/-- C8: the parameter object is determined by its four fields, so it holds
no data beyond the four user-selected options. -/
theorem C8_parameter_fields_determine (p q : VectorToScalarVolumeParameterNode)
    (h1 : p.InputVolume = q.InputVolume) (h2 : p.OutputVolume = q.OutputVolume)
    (h3 : p.ConversionMethod = q.ConversionMethod)
    (h4 : p.ComponentToExtract = q.ComponentToExtract) : p = q := by
  cases p; cases q; simp_all

/-- Witness for C8 on the concrete test parameter node. -/
theorem C8_parameter_fields_determine_witness :
    validParam.InputVolume = validParam.InputVolume ∧ validParam = validParam :=
  ⟨rfl, C8_parameter_fields_determine validParam validParam rfl rfl rfl rfl⟩

/-- C9: a parameter node whose input and output are the same node is
rejected with the same-node message before any mode-specific check, whatever
the conversion method and component index. -/
theorem C9_same_node_rejected (pn : VectorToScalarVolumeParameterNode)
    (inp out : VolumeNode) (hin : pn.InputVolume = some inp)
    (hout : pn.OutputVolume = some out) (hid : inp.id = out.id) :
    (run (some pn)).1 = [] ∧
    (run (some pn)).2 = Except.error
      "input and output volume is the same. Create a new volume for output to avoid this error." := by
  unfold run
  dsimp only
  rw [hin, hout]
  simp [isValidInputOutputData, hid]

/-- Witness for C9 on the same-node parameter node. -/
theorem C9_same_node_rejected_witness :
    smallVectorNode.id = smallVectorNode.id ∧
    ((run (some sameNodeParam)).1 = [] ∧
      (run (some sameNodeParam)).2 = Except.error
        "input and output volume is the same. Create a new volume for output to avoid this error.") :=
  ⟨rfl, C9_same_node_rejected sameNodeParam smallVectorNode smallVectorNode rfl rfl rfl⟩

/-- C10: every pipeline copies the input IJK-to-RAS matrix onto the output
node, and only the output node is produced (its identity is preserved; the
input node is not part of the result). -/
theorem C10_geometry_copied (m : ConversionMethods) (inp out : VolumeNode) (c : Int) :
    (applyConversion m inp out c).ijkToRAS = inp.ijkToRAS ∧
    (applyConversion m inp out c).id = out.id := by
  cases m <;> exact ⟨rfl, rfl⟩

/-!
Attempt-count lemmas for the download utilities, and the C7 claim.
-/

theorem downloadFileFresh_dl (env : DownloadEnv) (a d : Option String)
    (s : DownloadState) (b : Bool) (s2 : DownloadState)
    (h : downloadFileFresh env a d s = Except.ok (b, s2)) : s2.dl = s.dl + 1 := by
  unfold downloadFileFresh at h
  split at h
  · simp only [Except.ok.injEq, Prod.mk.injEq] at h
    rw [← h.2]
  · dsimp only at h
    split at h
    · split at h
      · exact absurd h (by simp)
      · split at h <;>
          (simp only [Except.ok.injEq, Prod.mk.injEq] at h; rw [← h.2])
    · simp only [Except.ok.injEq, Prod.mk.injEq] at h
      rw [← h.2]

theorem downloadFileNoRedownload_dl (env : DownloadEnv) (cs : Option String)
    (s : DownloadState) (b : Bool) (s2 : DownloadState)
    (h : downloadFileNoRedownload env cs s = Except.ok (b, s2)) : s2.dl ≤ s.dl + 1 := by
  unfold downloadFileNoRedownload at h
  split at h
  · simp only [Except.ok.injEq, Prod.mk.injEq] at h
    rw [← h.2]
    exact Nat.le_succ s.dl
  · split at h
    · exact le_of_eq (downloadFileFresh_dl env _ _ s b s2 h)
    · split at h
      · exact le_of_eq (downloadFileFresh_dl env _ _ s b s2 h)
      · split at h
        · split at h
          · exact absurd h (by simp)
          · split at h <;>
              (simp only [Except.ok.injEq, Prod.mk.injEq] at h; rw [← h.2]) <;>
              exact Nat.le_succ s.dl
        · simp only [Except.ok.injEq, Prod.mk.injEq] at h
          rw [← h.2]
          exact Nat.le_succ s.dl

theorem downloadFile_dl (env : DownloadEnv) (cs : Option String) (re : Bool)
    (s : DownloadState) (b : Bool) (s2 : DownloadState)
    (h : downloadFile env cs re s = Except.ok (b, s2)) : s2.dl ≤ s.dl + 1 := by
  unfold downloadFile at h
  split at h
  · simp only [Except.ok.injEq, Prod.mk.injEq] at h
    rw [← h.2]
    exact Nat.le_succ s.dl
  · split at h
    · exact le_of_eq (downloadFileFresh_dl env _ _ s b s2 h)
    · split at h
      · exact le_of_eq (downloadFileFresh_dl env _ _ s b s2 h)
      · split at h
        · split at h
          · exact absurd h (by simp)
          · split at h
            · split at h
              · exact downloadFileNoRedownload_dl env cs { s with file := none } b s2 h
              · simp only [Except.ok.injEq, Prod.mk.injEq] at h
                rw [← h.2]
                exact Nat.le_succ s.dl
            · simp only [Except.ok.injEq, Prod.mk.injEq] at h
              rw [← h.2]
              exact Nat.le_succ s.dl
        · simp only [Except.ok.injEq, Prod.mk.injEq] at h
          rw [← h.2]
          exact Nat.le_succ s.dl

theorem extractArchive_dl (env : DownloadEnv) (ext : String) (exp : Option Nat)
    (s : DownloadState) : (extractArchive env ext exp s).2.dl = s.dl := by
  unfold extractArchive
  split
  · rfl
  · dsimp only
    split
    · rfl
    · split
      · rfl
      · split <;> rfl

theorem cleanupState_dl (s s2 : DownloadState) (h : cleanupState s = Except.ok s2) :
    s2.dl = s.dl := by
  unfold cleanupState at h
  split at h
  · exact absurd h (by simp)
  · simp only [Except.ok.injEq] at h
    rw [← h]

theorem downloadAndExtractArchive_dl (env : DownloadEnv) (ext : String)
    (exp : Option Nat) (cs : Option String) (n : Nat) :
    ∀ (s : DownloadState) (b : Bool) (s2 : DownloadState),
      downloadAndExtractArchive env ext exp cs n s = Except.ok (b, s2) →
        s2.dl ≤ s.dl + n := by
  induction n with
  | zero =>
    intro s b s2 h
    unfold downloadAndExtractArchive at h
    split at h
    · exact absurd h (by simp)
    · rename_i s1 heq
      simp only [Except.ok.injEq, Prod.mk.injEq] at h
      rw [← h.2]
      exact le_of_eq (cleanupState_dl s s1 heq)
  | succ k ih =>
    intro s b s2 h
    unfold downloadAndExtractArchive at h
    split at h
    · exact absurd h (by simp)
    · rename_i r1 heq1
      have hr1 : r1.2.dl ≤ s.dl + 1 := downloadFile_dl env cs true s r1.1 r1.2 heq1
      split at h
      · split at h
        · exact absurd h (by simp)
        · rename_i s1 heq2
          have h2 := ih s1 b s2 h
          have h3 : s1.dl = r1.2.dl := cleanupState_dl r1.2 s1 heq2
          omega
      · dsimp only at h
        split at h
        · split at h
          · exact absurd h (by simp)
          · rename_i s1 heq2
            have h2 := ih s1 b s2 h
            have h3 : s1.dl = (extractArchive env ext exp r1.2).2.dl :=
              cleanupState_dl _ s1 heq2
            have h4 : (extractArchive env ext exp r1.2).2.dl = r1.2.dl :=
              extractArchive_dl env ext exp r1.2
            omega
        · simp only [Except.ok.injEq, Prod.mk.injEq] at h
          have h4 : (extractArchive env ext exp r1.2).2.dl = r1.2.dl :=
            extractArchive_dl env ext exp r1.2
          rw [← h.2]
          omega

/-- C7, counterexample to the claim as stated: after the checksum mismatch of
the pre-existing target file, `downloadFile` does re-attempt the download
(one retrieval is performed and succeeds), and after a first cycle whose
fresh download fails its checksum, `downloadAndExtractArchive` does
re-attempt the cycle (two retrievals are performed and the second cycle
succeeds). -/
theorem C7_counterexample :
    (preexistingFileState.dl = 0 ∧
      retryEnv.hash "SHA256" "old" ≠ sha256Digest) ∧
    downloadFile retryEnv (some ("SHA256:" ++ sha256Digest)) true preexistingFileState =
      Except.ok (true, { file := some "new", dirCount := 0, dl := 1, uz := 0 }) ∧
    (emptyDownloadState.dl = 0 ∧ retryEnvB.net 0 = some "corrupt" ∧
      retryEnvB.hash "SHA256" "corrupt" ≠ sha256Digest) ∧
    downloadAndExtractArchive retryEnvB ".zip" (some 5)
        (some ("SHA256:" ++ sha256Digest)) 3 emptyDownloadState =
      Except.ok (true, { file := some "new", dirCount := 5, dl := 2, uz := 1 }) := by
  refine ⟨⟨rfl, by decide⟩, by rfl, ⟨rfl, rfl, by decide⟩, by rfl⟩

/-- C7, amended: `downloadFile` performs at most one actual retrieval per
call (its only retry is the single fresh attempt after deleting a
pre-existing file with a mismatched checksum), and `downloadAndExtractArchive`
performs at most `numberOfTrials` retrievals, whenever the calls return
rather than raise. -/
theorem C7_retry_bounds :
    (∀ (env : DownloadEnv) (cs : Option String) (re : Bool)
      (s : DownloadState) (b : Bool) (s2 : DownloadState),
      downloadFile env cs re s = Except.ok (b, s2) → s2.dl ≤ s.dl + 1) ∧
    (∀ (env : DownloadEnv) (ext : String) (exp : Option Nat) (cs : Option String)
      (n : Nat) (s : DownloadState) (b : Bool) (s2 : DownloadState),
      downloadAndExtractArchive env ext exp cs n s = Except.ok (b, s2) →
        s2.dl ≤ s.dl + n) :=
  ⟨downloadFile_dl, fun env ext exp cs n => downloadAndExtractArchive_dl env ext exp cs n⟩

/-- Witness for the C7 bounds at the two concrete retry scenarios. -/
theorem C7_retry_bounds_witness :
    ({ file := some "new", dirCount := 0, dl := 1, uz := 0 } : DownloadState).dl ≤
      preexistingFileState.dl + 1 ∧
    ({ file := some "new", dirCount := 5, dl := 2, uz := 1 } : DownloadState).dl ≤
      emptyDownloadState.dl + 3 :=
  ⟨C7_retry_bounds.1 retryEnv (some ("SHA256:" ++ sha256Digest)) true preexistingFileState
      true { file := some "new", dirCount := 0, dl := 1, uz := 0 } (by rfl),
    C7_retry_bounds.2 retryEnvB ".zip" (some 5) (some ("SHA256:" ++ sha256Digest)) 3
      emptyDownloadState true { file := some "new", dirCount := 5, dl := 2, uz := 1 } (by rfl)⟩

end SlicerSpec
